import Mathlib

/-!
Verification development for the OpenPlayer server.

The definitions below are shallow embeddings of the Python sources:
`server.py`, `streamers/spotify.py`, `streamers/youtube.py`,
`streamers/utils.py`.  Python byte strings are modelled as `List Nat`,
Python text strings as `List Char` (for the regex-based parsers) or
`String` (for metadata), Python `int` as `Int` (with `Int.fdiv` for
Python floor division `//`), and raised exceptions as an explicit
`PyErr` error value carried in `Except`.
-/

/--
Python exception values that the embedded code can raise.  `streamerError`
stands for the repository's own `StreamerError` class.
Modelled from the spec: the file `streamers/exceptions.py` defining
`StreamerError` is not present under `src/`; the spec's error taxonomy (§7)
describes it as the streamers' own error type, distinct from Python
builtins such as `TypeError` and `AttributeError`, which the inductive
keeps as separate constructors.
-/
inductive PyErr where
  | streamerError (msg : String)
  | typeError (msg : String)
  | attributeError (msg : String)
  | providerFailure (msg : String)
  | runtimeError (msg : String)
  deriving Repr, DecidableEq

/-- Is the exception an instance of `StreamerError` (the class the
`except StreamerError` clauses in `server.py` catch)? -/
def is_streamer_error : PyErr → Bool
  | .streamerError _ => true
  | _ => false

/-- The message of the exception, as `str(e)` would render it. -/
def py_str : PyErr → String
  | .streamerError m => m
  | .typeError m => m
  | .attributeError m => m
  | .providerFailure m => m
  | .runtimeError m => m

/-- `models.Entry`: the normalized search record `{title, url, source}`. -/
structure Entry where
  title : String
  url : String
  source : String
  deriving Repr, DecidableEq

/-- `streamers/utils.py`, `estimate_size`:
`(duration * bitrate * 125) + offset`. -/
def estimate_size (duration bitrate offset : Int) : Int :=
  duration * bitrate * 125 + offset

/-- `estimate_size` applied at its default offset argument `20000`. -/
def estimate_size_default (duration bitrate : Int) : Int :=
  estimate_size duration bitrate 20000

/-- The character class `[a-zA-Z0-9]` of `spotify_track_regex`
(`streamers/spotify.py`). -/
def isSpotifyIdChar (c : Char) : Bool :=
  c.isAlpha || c.isDigit

/-- The character class `[a-zA-Z0-9_-]` of `youtube_video_id_regex`
(`streamers/youtube.py`). -/
def isYoutubeIdChar (c : Char) : Bool :=
  c.isAlpha || c.isDigit || c = '_' || c = '-'

/-- One attempt of the regex engine to match `[class]{n}` at the start of
`s`: it succeeds exactly when `s` has at least `n` characters and the
first `n` all belong to the class, and returns those `n` characters. -/
def matchClassAt (p : Char → Bool) (n : Nat) (s : List Char) : Option (List Char) :=
  if n ≤ s.length ∧ (s.take n).all p then some (s.take n) else none

/-- `re.search` for the fixed-length character-class pattern `[class]{n}`:
try each start position from the left and return the first (leftmost)
match, or `none`. -/
def searchClassToken (p : Char → Bool) (n : Nat) : List Char → Option (List Char)
  | [] => matchClassAt p n []
  | c :: cs =>
    match matchClassAt p n (c :: cs) with
    | some t => some t
    | none => searchClassToken p n cs

/-- `SpotifyStreamer.parse_spotify_track_id`: `re.search` of
`([a-zA-Z0-9]{22})` over the input, returning `match.group()` or `None`. -/
def parse_spotify_track_id (s : List Char) : Option (List Char) :=
  searchClassToken isSpotifyIdChar 22 s

/-- `YouTubeStreamer._parse_youtube_video_id`: `re.search` of
`([a-zA-Z0-9_-]{11})` over the input, returning `match.group()` or `None`. -/
def yt_parse_video_id (s : List Char) : Option (List Char) :=
  searchClassToken isYoutubeIdChar 11 s

/-- A chunk of transcoder output, one `stdout.read(chunk_size)` result;
bytes are modelled as natural numbers. -/
abbrev Chunk := List Nat

/-- Total number of bytes in a list of chunks. -/
def producedTotal (cs : List Chunk) : Nat :=
  (cs.map List.length).sum

/-- Loop body of the generator in `SpotifyStreamer.generate_stream`
(`streamers/spotify.py` lines 162-171), run to completion against the
finite tape of `stdout` reads: an empty read (`if not out_chunk`) means
end-of-stream, upon which a zero-filled chunk of `size - transmitted`
bytes is yielded if `transmitted < size`; otherwise the chunk is yielded
unconditionally and `transmitted` grows by its length.  The list argument
is the remaining tape, the `Nat` argument the running `transmitted`. -/
def spotify_stream_go (size : Nat) : List Chunk → Nat → List Chunk
  | [], transmitted =>
    if transmitted < size then [List.replicate (size - transmitted) 0] else []
  | c :: cs, transmitted =>
    if c.isEmpty then
      (if transmitted < size then [List.replicate (size - transmitted) 0] else [])
    else
      c :: spotify_stream_go size cs (transmitted + c.length)

/-- The full sequence of chunks yielded by the Spotify generator when the
transcoder's stdout produces exactly the reads `reads` and the consumer
drains it to completion. -/
def spotify_stream_yields (size : Nat) (reads : List Chunk) : List Chunk :=
  spotify_stream_go size reads 0

/-- Loop body of the generator in `YouTubeStreamer.generate_stream`
(`streamers/youtube.py` lines 82-92): identical yield structure to the
Spotify variant (empty read ⇒ pad-if-short then `return`; otherwise yield
the chunk and continue), though its cleanup calls differ. -/
def youtube_stream_go (size : Nat) : List Chunk → Nat → List Chunk
  | [], transmitted =>
    if transmitted < size then [List.replicate (size - transmitted) 0] else []
  | c :: cs, transmitted =>
    if c.isEmpty then
      (if transmitted < size then [List.replicate (size - transmitted) 0] else [])
    else
      c :: youtube_stream_go size cs (transmitted + c.length)

/-- The full sequence of chunks yielded by the YouTube generator when the
transcoder's stdout produces exactly the reads `reads` and the consumer
drains it to completion. -/
def youtube_stream_yields (size : Nat) (reads : List Chunk) : List Chunk :=
  youtube_stream_go size reads 0

/-- The three ways a run of a stream generator can end: the transcoder's
stdout reaches end-of-stream; a read on stdout raises an I/O error; or the
consumer closes the generator early (client disconnect, delivered to the
generator as `GeneratorExit` at a `yield`). -/
inductive ExitPath where
  | eofReached
  | readError
  | consumerClosed
  deriving Repr, DecidableEq

/-- Cleanup calls a generator can make on the ffmpeg subprocess. -/
inductive CleanupAct where
  | closeStdin
  | closeStdout
  | terminate
  | wait
  deriving Repr, DecidableEq

/-- The `finally` block of the Spotify generator
(`streamers/spotify.py` lines 174-180): close stdin, close stdout,
`terminate()`, `wait()`. -/
def spotify_finally_actions : List CleanupAct :=
  [.closeStdin, .closeStdout, .terminate, .wait]

/-- Cleanup performed by the Spotify generator on each exit path.  The
loop sits in `try ... except: pass ... finally:` (lines 163-180): on
end-of-stream the loop `break`s into the `finally`; an I/O error and a
`GeneratorExit` are both swallowed by the bare `except: pass` and then
fall into the `finally`; so every path runs the full `finally` block. -/
def spotify_cleanup : ExitPath → List CleanupAct
  | .eofReached => spotify_finally_actions
  | .readError => spotify_finally_actions
  | .consumerClosed => spotify_finally_actions

/-- Cleanup performed by the YouTube generator on each exit path
(`streamers/youtube.py` lines 82-95).  On end-of-stream, lines 86-87 run
`stdout.close()` and `terminate()` before the `return`; a `GeneratorExit`
is caught by `except GeneratorExit` (lines 93-95) which runs
`stdout.close()` and `terminate()`; any other exception from the read is
not caught by any clause and propagates with no cleanup at all.  No path
ever calls `wait()`. -/
def youtube_cleanup : ExitPath → List CleanupAct
  | .eofReached => [.closeStdout, .terminate]
  | .readError => []
  | .consumerClosed => [.closeStdout, .terminate]

/-- A provider invocation recorded by the federated search handler:
provider name, query, and the limit passed to the provider's `search`. -/
structure ProviderCall where
  provider : String
  q : String
  limit : Int
  deriving Repr, DecidableEq

/-- Outcome of the `/search` handler. -/
inductive SearchOutcome where
  | badRequest (msg : String)
  | ok (entries : List Entry)
  | raised (e : PyErr)
  deriving Repr, DecidableEq

/-- `server.py` `search` (lines 28-39), with the two streamers' `search`
methods abstracted as oracles `spotify_search` and `youtube_search` (each
may raise).  The handler checks the query, calls the Spotify provider
with `limit // 2` (`Int.fdiv`, Python floor division), then the YouTube
provider with `limit // 2`, and returns the concatenation
`spotify_results + youtube_results`.  There is no `try` around either
call, so a raised exception propagates out of the handler (`.raised`).
The second component records the provider calls actually made, in order. -/
def search_route
    (spotify_search youtube_search : String → Int → Except PyErr (List Entry))
    (q : Option String) (limit : Int) : SearchOutcome × List ProviderCall :=
  match q with
  | none => (.badRequest "Missing q query param", [])
  | some qs =>
    if qs = "" then (.badRequest "Missing q query param", [])
    else
      match spotify_search qs (Int.fdiv limit 2) with
      | .error e => (.raised e, [⟨"Spotify", qs, Int.fdiv limit 2⟩])
      | .ok spotify_results =>
        match youtube_search qs (Int.fdiv limit 2) with
        | .error e =>
          (.raised e,
           [⟨"Spotify", qs, Int.fdiv limit 2⟩, ⟨"YouTube", qs, Int.fdiv limit 2⟩])
        | .ok youtube_results =>
          (.ok (spotify_results ++ youtube_results),
           [⟨"Spotify", qs, Int.fdiv limit 2⟩, ⟨"YouTube", qs, Int.fdiv limit 2⟩])

/-- The values of `librespot`'s `AudioFile.Format` that
`SpotifyStreamer._extract_bitrate` distinguishes, plus a constructor for
every other format. -/
inductive AudioFormat where
  | MP3_96
  | OGG_VORBIS_96
  | AAC_24_NORM
  | MP3_160
  | MP3_160_ENC
  | OGG_VORBIS_160
  | AAC_24
  | MP3_320
  | MP3_256
  | OGG_VORBIS_320
  | AAC_48
  | otherFormat
  deriving Repr, DecidableEq

/-- `SpotifyStreamer._extract_bitrate` (`streamers/spotify.py`): three
format buckets map to 96 / 160 / 320 kbps; an unknown format raises
`RuntimeError`. -/
def spotify_extract_bitrate : AudioFormat → Except PyErr Int
  | .MP3_96 | .OGG_VORBIS_96 | .AAC_24_NORM => .ok 96
  | .MP3_160 | .MP3_160_ENC | .OGG_VORBIS_160 | .AAC_24 => .ok 160
  | .MP3_320 | .MP3_256 | .OGG_VORBIS_320 | .AAC_48 => .ok 320
  | .otherFormat => .error (.runtimeError "Unknown format")

deriving instance DecidableEq for Except

/-- The track data a successful `content_feeder.load` yields, as consumed
by `SpotifyStreamer.request_stream`: `track.name`, `track.artist` names,
`track.duration` in milliseconds, and the preferred file's format. -/
structure LoadedTrack where
  name : String
  artistNames : List String
  durationMs : Int
  format : AudioFormat
  deriving Repr, DecidableEq

/-- The provider session's behaviour for one `request_stream` call:
`load1` is the outcome of `content_feeder.load` on the current session;
`load2` is the outcome of the same call after `init_session()` has
rebuilt the session. -/
structure Feeder where
  load1 : Except PyErr LoadedTrack
  load2 : Except PyErr LoadedTrack
  deriving Repr, DecidableEq

/-- What `request_stream` returns on success to the HTTP layer (the
generator itself is summarized by the size it is constructed with):
title, duration in seconds, declared size. -/
structure StreamResponse where
  title : String
  duration : Int
  size : Int
  deriving Repr, DecidableEq

/-- Lines 116-126 of `streamers/spotify.py`, run on a successfully loaded
track: extract the bitrate (may raise `RuntimeError`), compute
`duration = track.duration // 1000` and
`size = estimate_size(duration, bitrate)`, and build the title
`", ".join(artists) + " - " + name`. -/
def spotify_mk_stream_response (t : LoadedTrack) : Except PyErr StreamResponse :=
  match spotify_extract_bitrate t.format with
  | .error e => .error e
  | .ok bitrate =>
    let duration := Int.fdiv t.durationMs 1000
    .ok ⟨String.intercalate " - " [String.intercalate ", " t.artistNames, t.name],
         duration, estimate_size_default duration bitrate⟩

/-- Instrumented run of `SpotifyStreamer.request_stream`
(`streamers/spotify.py` lines 98-126): the result, the number of
`content_feeder.load` calls made, and the number of `init_session()`
rebuilds performed. -/
structure RequestStreamRun where
  result : Except PyErr StreamResponse
  load_calls : Nat
  init_session_calls : Nat
  deriving Repr, DecidableEq

/-- `SpotifyStreamer.request_stream` (`streamers/spotify.py` lines
98-126).  The id is parsed (a failure raises `StreamerError`); the first
`load` is attempted under `try`; on any exception `init_session()`
rebuilds the session and `load` is attempted once more, this second
attempt unguarded, so its exception propagates as-is.  The
`range_start` / `range_end` parameters are accepted but unused by the
live body (only the commented-out Ogg path reads them). -/
def spotify_request_stream (feeder : Feeder) (track_id : List Char)
    (range_start : Int) (range_end : Option Int) : RequestStreamRun :=
  match parse_spotify_track_id track_id with
  | none =>
    ⟨.error (.streamerError "Invalid trackId param, expected ([a-zA-Z0-9]\x7b22\x7d)"), 0, 0⟩
  | some _ =>
    match feeder.load1 with
    | .ok t => ⟨spotify_mk_stream_response t, 1, 0⟩
    | .error _ =>
      match feeder.load2 with
      | .ok t => ⟨spotify_mk_stream_response t, 2, 1⟩
      | .error e => ⟨.error e, 2, 1⟩

/-- Body of an HTTP response as the handlers build it. -/
inductive Body where
  | audioStream
  | emptyBody
  | text (s : String)
  deriving Repr, DecidableEq

/-- Outcome of an HTTP handler: a response the handler itself returns, or
an exception that escaped the handler (left to the framework, which did
not receive any status from the handler's own code). -/
inductive HttpOutcome where
  | response (status : Nat) (headers : List (String × String)) (body : Body)
  | unhandled (e : PyErr)
  deriving Repr, DecidableEq

/-- The status set by the handler's own code, if any. -/
def statusOf : HttpOutcome → Option Nat
  | .response s _ _ => some s
  | .unhandled _ => none

/-- Header dict built at `server.py` lines 98-104: `Content-Length`,
`Audio-Duration`, `Content-Type`, plus `Content-Disposition` when
`download` is set.  No `Content-Range` key is ever inserted. -/
def stream_headers (r : StreamResponse) (download : Bool) : List (String × String) :=
  let base := [("Content-Length", toString r.size),
               ("Audio-Duration", toString r.duration),
               ("Content-Type", "audio/mpeg")]
  if download then
    base ++ [("Content-Disposition", "attachment; filename=\"" ++ r.title ++ ".mp3\"")]
  else base

/-- The `try ... except StreamerError` dispatch of `stream_spotify`
(`server.py` lines 96-107): a raised `StreamerError` becomes a 400 with
`str(e)` as body; any other exception propagates unhandled; a successful
`request_stream` becomes a 200 (Flask's default status) with the headers
of `stream_headers` and a streamed body for `GET` (an empty one for
`HEAD`). -/
def handle_request_stream_result (method : String) (download : Bool) :
    Except PyErr StreamResponse → HttpOutcome
  | .error e =>
    if is_streamer_error e then .response 400 [] (.text (py_str e))
    else .unhandled e
  | .ok r =>
    .response 200 (stream_headers r download)
      (if method = "GET" then .audioStream else .emptyBody)

/-- Number of positional arguments (beyond `self`) that
`SpotifyStreamer.request_stream` requires: `track_id`, `range_start`,
`range_end` (`streamers/spotify.py` lines 98-100, no defaults). -/
def spotify_request_stream_param_count : Nat := 3

/-- Number of positional arguments `server.py` line 97 passes to
`request_stream`: just `track_id`. -/
def stream_spotify_arg_count : Nat := 1

/-- `server.py` `stream_spotify` (lines 88-107).  The handler reads the
method, `trackId` and `download`; the incoming `Range` header
(`range_header`) is part of the request but is never read by the handler,
which is why it appears as an unused parameter.  A missing or empty
`trackId` gives a 400.  Otherwise the handler calls
`spotify_streamer.request_stream(track_id)` with one positional argument,
while the method requires three, so Python raises `TypeError` at the call
site, inside the `try`; `except StreamerError` does not catch it.  (The
`else` branch below, which would run `request_stream` with the two extra
arguments, is unreachable because `1 < 3`; the argument values `0` and
`none` in it are placeholders for the arguments the call site never
supplies.) -/
def stream_spotify (method : String) (range_header : Option (Int × Option Int))
    (track_id : Option (List Char)) (download : Bool) (feeder : Feeder) : HttpOutcome :=
  match track_id with
  | none => .response 400 [] (.text "Missing trackId query param")
  | some tid =>
    if tid.isEmpty then .response 400 [] (.text "Missing trackId query param")
    else if stream_spotify_arg_count < spotify_request_stream_param_count then
      handle_request_stream_result method download
        (.error (.typeError "request_stream missing 2 required positional arguments"))
    else
      handle_request_stream_result method download
        (spotify_request_stream feeder tid 0 none).result

/-- The attribute names defined on `YouTubeStreamer` instances
(`streamers/youtube.py`: class attributes, `__init__` instance
attributes, and methods) together with those inherited from
`BaseStreamer`.  There is no `parse_youtube_video_id`; the parser method
is named `_parse_youtube_video_id`. -/
def youtube_streamer_attr_names : List String :=
  ["stream_path", "search_path", "youtube_video_id_regex", "MUSIC_CATEGORY",
   "search_type", "video_category_id", "youtube_api", "chunk_size",
   "_parse_youtube_video_id", "get_name", "search", "request_stream",
   "generate_stream"]

/-- Python attribute lookup on a `YouTubeStreamer` instance: a name not
among the instance's attributes raises `AttributeError`. -/
def youtube_streamer_getattr (nm : String) : Except PyErr Unit :=
  if nm ∈ youtube_streamer_attr_names then .ok ()
  else .error (.attributeError ("YouTubeStreamer object has no attribute " ++ nm))

/-- `server.py` `stream` (lines 41-64), the combined endpoint.  A missing
or empty `id` gives a 400.  Inside the `try`, line 49 evaluates
`spotify_streamer.parse_spotify_track_id(id)` (an ordinary call), then
line 50 looks up `youtube_streamer.parse_youtube_video_id` — an attribute
the YouTube streamer does not define — so `AttributeError` is raised
before the branch on `track_id`; `except StreamerError` (line 62) does
not catch it and it propagates unhandled.  The `.ok` branch of the
lookup, standing for the rest of the `try` block (lines 51-64), is
unreachable and therefore not modelled further. -/
def stream_combined (id : Option (List Char)) (download : Bool) : HttpOutcome :=
  match id with
  | none => .response 400 [] (.text "Missing id query param")
  | some i =>
    if i.isEmpty then .response 400 [] (.text "Missing id query param")
    else
      let _track_id := parse_spotify_track_id i
      match youtube_streamer_getattr "parse_youtube_video_id" with
      | .error e =>
        if is_streamer_error e then .response 400 [] (.text (py_str e))
        else .unhandled e
      | .ok _ => .response 200 [] .audioStream

/-- A concrete 22-character Spotify track id. -/
def sampleTrackId : List Char := List.replicate 22 'a'

/-- A track whose metadata gives duration 200 s at 320 kbps, hence a
declared size of `estimate_size(200, 320) = 8020000`. -/
def sampleTrack : LoadedTrack :=
  ⟨"Money", ["Pink Floyd"], 200000, .OGG_VORBIS_320⟩

/-- A session on which the first load succeeds with `sampleTrack`. -/
def okFeeder : Feeder := ⟨.ok sampleTrack, .ok sampleTrack⟩

/-- A session on which both load attempts fail (session invalid both
before and after the rebuild). -/
def failFeeder : Feeder :=
  ⟨.error (.providerFailure "session expired"),
   .error (.providerFailure "session expired")⟩

/-- A Spotify search oracle that raises. -/
def spotifySearchFail : String → Int → Except PyErr (List Entry) :=
  fun _ _ => .error (.providerFailure "spotify api down")

/-- A YouTube search oracle returning one entry. -/
def youtubeEntry : Entry := ⟨"Money", "/stream/youtube?videoId=abcdefghijk", "YouTube"⟩

/-- A YouTube search oracle that succeeds with `youtubeEntry`. -/
def youtubeSearchOk : String → Int → Except PyErr (List Entry) :=
  fun _ _ => .ok [youtubeEntry]

/-- A sample Spotify search entry. -/
def spotifyEntry : Entry :=
  ⟨"Pink Floyd - Money", "/stream/spotify?trackId=aaaaaaaaaaaaaaaaaaaaaa", "Spotify"⟩

/-- A Spotify search oracle that succeeds with `spotifyEntry`. -/
def spotifySearchOk : String → Int → Except PyErr (List Entry) :=
  fun _ _ => .ok [spotifyEntry]

/-! ## Helper lemmas -/

lemma producedTotal_nil : producedTotal [] = 0 := rfl

lemma producedTotal_cons (c : Chunk) (cs : List Chunk) :
    producedTotal (c :: cs) = c.length + producedTotal cs := by
  simp [producedTotal]

lemma matchClassAt_eq_some {p : Char → Bool} {n : Nat} {s r : List Char}
    (h : matchClassAt p n s = some r) : r.length = n ∧ r.all p = true := by
  unfold matchClassAt at h
  split at h
  · rename_i hc
    cases h
    refine ⟨?_, hc.2⟩
    simp [List.length_take, Nat.min_eq_left hc.1]
  · cases h

lemma matchClassAt_self {p : Char → Bool} {n : Nat} {r : List Char}
    (hl : r.length = n) (hp : r.all p = true) : matchClassAt p n r = some r := by
  have h1 : n ≤ r.length := le_of_eq hl.symm
  have h2 : r.take n = r := by rw [← hl]; exact List.take_length r
  simp [matchClassAt, h1, h2, hp]

lemma searchClassToken_eq_some {p : Char → Bool} {n : Nat} :
    ∀ {s r : List Char}, searchClassToken p n s = some r → r.length = n ∧ r.all p = true
  | [], _, h => matchClassAt_eq_some h
  | c :: cs, r, h => by
    unfold searchClassToken at h
    cases hm : matchClassAt p n (c :: cs) with
    | some t => rw [hm] at h; cases h; exact matchClassAt_eq_some hm
    | none => rw [hm] at h; exact searchClassToken_eq_some h

lemma searchClassToken_self {p : Char → Bool} {n : Nat} {r : List Char}
    (hl : r.length = n) (hp : r.all p = true) : searchClassToken p n r = some r := by
  cases r with
  | nil => unfold searchClassToken; exact matchClassAt_self hl hp
  | cons c cs => unfold searchClassToken; rw [matchClassAt_self hl hp]

lemma spotify_stream_go_total (size : Nat) :
    ∀ (reads : List Chunk) (t : Nat), (∀ c ∈ reads, c ≠ []) →
      producedTotal (spotify_stream_go size reads t) + t = max size (t + producedTotal reads)
  | [], t, _ => by
    simp only [spotify_stream_go]
    split
    · simp [producedTotal]; omega
    · simp [producedTotal]; omega
  | c :: cs, t, h => by
    have hc : ¬ c.isEmpty := by
      have hne := h c (List.mem_cons_self c cs)
      cases c
      · exact absurd rfl hne
      · simp
    have ih := spotify_stream_go_total size cs (t + c.length)
      (fun x hx => h x (List.mem_cons_of_mem _ hx))
    simp only [spotify_stream_go, if_neg hc, producedTotal_cons]
    omega

lemma youtube_stream_go_total (size : Nat) :
    ∀ (reads : List Chunk) (t : Nat), (∀ c ∈ reads, c ≠ []) →
      producedTotal (youtube_stream_go size reads t) + t = max size (t + producedTotal reads)
  | [], t, _ => by
    simp only [youtube_stream_go]
    split
    · simp [producedTotal]; omega
    · simp [producedTotal]; omega
  | c :: cs, t, h => by
    have hc : ¬ c.isEmpty := by
      have hne := h c (List.mem_cons_self c cs)
      cases c
      · exact absurd rfl hne
      · simp
    have ih := youtube_stream_go_total size cs (t + c.length)
      (fun x hx => h x (List.mem_cons_of_mem _ hx))
    simp only [youtube_stream_go, if_neg hc, producedTotal_cons]
    omega

/-! ## Claim theorems -/

/-- C1, counterexample: with declared size 1 and the transcoder producing
a single 2-byte chunk (the overrun scenario), both generators yield 2
bytes, not 1 — the final chunk is not truncated, so the claimed invariant
`total yielded = declared size` fails in the overrun scenario. -/
theorem generate_stream_overrun_not_truncated :
    producedTotal (spotify_stream_yields 1 [[0, 0]]) = 2 ∧
    producedTotal (youtube_stream_yields 1 [[0, 0]]) = 2 ∧ (2 : Nat) ≠ 1 := by
  decide

/-- C1, amended: for every declared size and every finite sequence of
nonempty transcoder output chunks, the bytes yielded by either generator
total `max size (bytes produced)`: exactly `size` in the underrun case
(a trailing zero-filled chunk pads the difference) and in the exact-match
case, but in the overrun case the total equals the produced total, which
exceeds `size` — no truncation happens. -/
theorem generate_stream_total_max (size : Nat) (reads : List Chunk)
    (h : ∀ c ∈ reads, c ≠ []) :
    producedTotal (spotify_stream_yields size reads) = max size (producedTotal reads) ∧
    producedTotal (youtube_stream_yields size reads) = max size (producedTotal reads) := by
  have h1 := spotify_stream_go_total size reads 0 h
  have h2 := youtube_stream_go_total size reads 0 h
  constructor
  · simpa [spotify_stream_yields] using h1
  · simpa [youtube_stream_yields] using h2

/-- Witness for `generate_stream_total_max` at size 4 with produced
chunks of 2 and 1 bytes (underrun, so the total is padded to 4). -/
theorem generate_stream_total_max_witness :
    producedTotal (spotify_stream_yields 4 [[1, 2], [3]]) =
      max 4 (producedTotal [[1, 2], [3]]) ∧
    producedTotal (youtube_stream_yields 4 [[1, 2], [3]]) =
      max 4 (producedTotal [[1, 2], [3]]) :=
  generate_stream_total_max 4 [[1, 2], [3]] (by decide)

/-- C2, counterexample: the YouTube generator never calls `wait()` on the
consumer-close (client disconnect) exit path, and performs no cleanup at
all — not even `terminate()` — on the mid-stream I/O error exit path, so
the claim that on every exit path of both variants the process is
terminated and waited on is false. -/
theorem youtube_cleanup_missing_wait :
    CleanupAct.wait ∉ youtube_cleanup ExitPath.consumerClosed ∧
    CleanupAct.terminate ∉ youtube_cleanup ExitPath.readError := by
  decide

/-- C2, amended: the Spotify generator runs its full `finally` cleanup
(close stdin, close stdout, terminate, wait) on every exit path; the
YouTube generator closes stdout and terminates on the end-of-stream and
consumer-close paths, does nothing on the I/O error path, and never waits
on the process on any path. -/
theorem cleanup_per_exit_path :
    (∀ p, spotify_cleanup p = spotify_finally_actions) ∧
    youtube_cleanup ExitPath.eofReached = [CleanupAct.closeStdout, CleanupAct.terminate] ∧
    youtube_cleanup ExitPath.consumerClosed = [CleanupAct.closeStdout, CleanupAct.terminate] ∧
    youtube_cleanup ExitPath.readError = [] ∧
    (∀ p, CleanupAct.wait ∉ youtube_cleanup p) := by
  refine ⟨?_, rfl, rfl, rfl, ?_⟩
  · intro p; cases p <;> rfl
  · intro p; cases p <;> decide

/-- Witness for `cleanup_per_exit_path` at the consumer-close exit path. -/
theorem cleanup_per_exit_path_witness :
    spotify_cleanup ExitPath.consumerClosed = spotify_finally_actions ∧
    CleanupAct.wait ∉ youtube_cleanup ExitPath.consumerClosed :=
  ⟨cleanup_per_exit_path.1 ExitPath.consumerClosed,
   cleanup_per_exit_path.2.2.2.2 ExitPath.consumerClosed⟩

/-- C3: `estimate_size` with the default offset equals
`duration * bitrate * 125 + 20000` for all durations `d ≥ 0` and
bitrates `b > 0` (it is a pure Lean function, hence deterministic), and
in particular `estimate_size 200 320 = 8020000`. -/
theorem estimate_size_formula (d b : Int) (hd : 0 ≤ d) (hb : 0 < b) :
    estimate_size_default d b = d * b * 125 + 20000 ∧
    estimate_size_default 200 320 = 8020000 :=
  ⟨rfl, by decide⟩

/-- Witness for `estimate_size_formula` at duration 200 s, bitrate
320 kbps. -/
theorem estimate_size_formula_witness :
    estimate_size_default 200 320 = 200 * 320 * 125 + 20000 ∧
    estimate_size_default 200 320 = 8020000 :=
  estimate_size_formula 200 320 (by decide) (by decide)

/-- C4: for every nonempty query and limit, the `/search` handler invokes
the Spotify provider with `limit // 2`, then the YouTube provider with
`limit // 2` (floor division; the remainder is dropped), and returns the
Spotify results concatenated before the YouTube results, in
provider-invocation order; and `20 // 2 = 10`, so with limit 20 each
sub-request carries limit 10. -/
theorem search_route_splits_limit
    (sp yt : String → Int → Except PyErr (List Entry)) (q : String) (limit : Int)
    (a b : List Entry) (hq : q ≠ "")
    (hsp : sp q (Int.fdiv limit 2) = .ok a)
    (hyt : yt q (Int.fdiv limit 2) = .ok b) :
    search_route sp yt (some q) limit =
      (.ok (a ++ b),
       [⟨"Spotify", q, Int.fdiv limit 2⟩, ⟨"YouTube", q, Int.fdiv limit 2⟩]) ∧
    Int.fdiv 20 2 = 10 := by
  constructor
  · simp [search_route, hq, hsp, hyt]
  · decide

/-- Witness for `search_route_splits_limit` with limit 20: each provider
is called with limit 10 and the combined list keeps Spotify first. -/
theorem search_route_splits_limit_witness :
    search_route spotifySearchOk youtubeSearchOk (some "money") 20 =
      (.ok ([spotifyEntry] ++ [youtubeEntry]),
       [⟨"Spotify", "money", Int.fdiv 20 2⟩, ⟨"YouTube", "money", Int.fdiv 20 2⟩]) ∧
    Int.fdiv 20 2 = 10 :=
  search_route_splits_limit spotifySearchOk youtubeSearchOk "money" 20
    [spotifyEntry] [youtubeEntry] (by decide) rfl rfl

/-- C5, counterexample: with the Spotify provider raising and the YouTube
provider returning one entry, the `/search` handler does not degrade the
failing provider to an empty list — the exception propagates out of the
handler, and the combined result is not the other provider's list. -/
theorem search_error_propagates_cex :
    (search_route spotifySearchFail youtubeSearchOk (some "money") 20).1 =
      .raised (.providerFailure "spotify api down") ∧
    (search_route spotifySearchFail youtubeSearchOk (some "money") 20).1 ≠
      .ok [youtubeEntry] := by
  decide

/-- C5, amended: the `/search` handler wraps neither provider call in a
`try`, so any error a provider raises propagates and the whole combined
search fails: a Spotify error propagates directly, and when Spotify
succeeds a YouTube error propagates; there is no empty-list degradation
and no partial result. -/
theorem search_provider_error_propagates
    (sp yt : String → Int → Except PyErr (List Entry)) (q : String) (limit : Int)
    (hq : q ≠ "") :
    (∀ e, sp q (Int.fdiv limit 2) = .error e →
      (search_route sp yt (some q) limit).1 = .raised e) ∧
    (∀ a e, sp q (Int.fdiv limit 2) = .ok a → yt q (Int.fdiv limit 2) = .error e →
      (search_route sp yt (some q) limit).1 = .raised e) := by
  constructor
  · intro e he
    simp [search_route, hq, he]
  · intro a e hsp hyt
    simp [search_route, hq, hsp, hyt]

/-- Witness for `search_provider_error_propagates`: the concrete failing
Spotify oracle makes the whole search raise. -/
theorem search_provider_error_propagates_witness :
    (search_route spotifySearchFail youtubeSearchOk (some "q") 20).1 =
      .raised (.providerFailure "spotify api down") :=
  (search_provider_error_propagates spotifySearchFail youtubeSearchOk "q" 20
    (by decide)).1 (.providerFailure "spotify api down") rfl

/-- C6, counterexample: a request with a valid 22-character track id on a
session where both load attempts fail produces neither a 400 nor a 502:
the handler raises `TypeError` at its one-argument `request_stream` call
before any load attempt, and that exception escapes the handler, which
therefore sets no status at all. -/
theorem session_retry_http_cex :
    statusOf (stream_spotify "GET" none (some sampleTrackId) false failFeeder) ≠ some 400 ∧
    statusOf (stream_spotify "GET" none (some sampleTrackId) false failFeeder) ≠ some 502 ∧
    stream_spotify "GET" none (some sampleTrackId) false failFeeder =
      .unhandled (.typeError "request_stream missing 2 required positional arguments") := by
  decide

/-- C6, amended: inside `request_stream` a first `load` failure rebuilds
the session synchronously and retries exactly once — one `init_session`
call, two `load` calls, never zero retries and never more than one — and
a second failure propagates as the raw provider exception, a success of
the retry producing the normal stream metadata.  The HTTP layer, however,
never converts that propagated exception to a 400 or 502: it catches only
`StreamerError`, so any other exception leaves the handler unhandled, and
in the code as written `stream_spotify` raises `TypeError` at the
one-argument `request_stream` call before any load can even be attempted. -/
theorem session_retry_once (f : Feeder) (tid : List Char) (rs : Int) (re : Option Int)
    (t0 : List Char) (hp : parse_spotify_track_id tid = some t0)
    (e1 : PyErr) (h1 : f.load1 = .error e1) :
    (spotify_request_stream f tid rs re).init_session_calls = 1 ∧
    (spotify_request_stream f tid rs re).load_calls = 2 ∧
    (∀ e2, f.load2 = .error e2 → (spotify_request_stream f tid rs re).result = .error e2) ∧
    (∀ t2, f.load2 = .ok t2 →
      (spotify_request_stream f tid rs re).result = spotify_mk_stream_response t2) ∧
    (∀ method dl e, is_streamer_error e = false →
      handle_request_stream_result method dl (.error e) = .unhandled e) ∧
    (∀ method r dl, tid.isEmpty = false →
      stream_spotify method r (some tid) dl f =
        .unhandled (.typeError "request_stream missing 2 required positional arguments")) := by
  refine ⟨?_, ?_, ?_, ?_, ?_, ?_⟩
  · cases hl2 : f.load2 <;> simp [spotify_request_stream, hp, h1, hl2]
  · cases hl2 : f.load2 <;> simp [spotify_request_stream, hp, h1, hl2]
  · intro e2 he2
    simp [spotify_request_stream, hp, h1, he2]
  · intro t2 ht2
    simp [spotify_request_stream, hp, h1, ht2]
  · intro method dl e he
    simp [handle_request_stream_result, he]
  · intro method r dl hne
    simp [stream_spotify, hne, stream_spotify_arg_count, spotify_request_stream_param_count,
          handle_request_stream_result, is_streamer_error]

/-- Witness for `session_retry_once` on the concrete twice-failing
session: one rebuild, two load calls, and the second failure's exception
as the propagated result. -/
theorem session_retry_once_witness :
    (spotify_request_stream failFeeder sampleTrackId 0 none).init_session_calls = 1 ∧
    (spotify_request_stream failFeeder sampleTrackId 0 none).load_calls = 2 ∧
    (spotify_request_stream failFeeder sampleTrackId 0 none).result =
      .error (.providerFailure "session expired") := by
  have h := session_retry_once failFeeder sampleTrackId 0 none sampleTrackId
    (by decide) (.providerFailure "session expired") rfl
  exact ⟨h.1, h.2.1, h.2.2.1 (.providerFailure "session expired") rfl⟩

/-- C7, counterexample: a GET request whose Range header starts at
8020000 — exactly the declared size that `request_stream` computes for
`sampleTrack` (200 s at 320 kbps), so `start ≥ declaredSize` — does not
receive a 416: the handler never reads the Range header and sets no
status at all on this input (the `TypeError` from its one-argument
`request_stream` call escapes instead). -/
theorem range_unsatisfiable_no_416_cex :
    statusOf (stream_spotify "GET" (some (8020000, none)) (some sampleTrackId) false okFeeder)
      ≠ some 416 ∧
    (spotify_request_stream okFeeder sampleTrackId 0 none).result =
      .ok ⟨"Pink Floyd - Money", 200, 8020000⟩ := by
  decide

/-- C7, amended: `stream_spotify` never inspects the Range header — its
outcome is identical whatever Range header the request carries — and no
input whatsoever makes it produce a 416 status (its own code only ever
sets 400 or 200, and on the current call path the `TypeError` escapes
with no status). -/
theorem stream_spotify_ignores_range :
    (∀ method r r2 tid dl f,
      stream_spotify method r tid dl f = stream_spotify method r2 tid dl f) ∧
    (∀ method r tid dl f, statusOf (stream_spotify method r tid dl f) ≠ some 416) := by
  constructor
  · intro method r r2 tid dl f
    rfl
  · intro method r tid dl f
    cases tid with
    | none => simp [stream_spotify, statusOf]
    | some t =>
      by_cases ht : t.isEmpty
      · simp [stream_spotify, ht, statusOf]
      · simp [stream_spotify, ht, statusOf, stream_spotify_arg_count,
              spotify_request_stream_param_count, handle_request_stream_result,
              is_streamer_error]

/-- Witness for `stream_spotify_ignores_range`: two concrete requests
differing only in their Range header get identical outcomes, and the
range-beyond-size request is not answered with 416. -/
theorem stream_spotify_ignores_range_witness :
    stream_spotify "GET" (some (8020000, none)) (some sampleTrackId) false okFeeder =
      stream_spotify "GET" none (some sampleTrackId) false okFeeder ∧
    statusOf (stream_spotify "GET" (some (0, some 100)) (some sampleTrackId) false okFeeder)
      ≠ some 416 :=
  ⟨stream_spotify_ignores_range.1 "GET" (some (8020000, none)) none (some sampleTrackId)
     false okFeeder,
   stream_spotify_ignores_range.2 "GET" (some (0, some 100)) (some sampleTrackId)
     false okFeeder⟩

/-- C8: evaluating `stream_spotify` at a well-formed no-Range GET request
whose track loads successfully shows the code slip: the one-argument call
to the three-parameter `request_stream` raises `TypeError`, so the
request ends unhandled (an internal server error) instead of the 200 the
claim — and the handler's own response-building code — prescribe.  The
second and third conjuncts evaluate the intended path: `request_stream`,
called with its full argument list, resolves the track to declared size
8020000, and the handler's dispatch on that successful result builds
exactly a 200 response with `Content-Length` equal to the declared size
and no `Content-Range` header. -/
theorem stream_spotify_arity_type_error :
    stream_spotify "GET" none (some sampleTrackId) false okFeeder =
      .unhandled (.typeError "request_stream missing 2 required positional arguments") ∧
    (spotify_request_stream okFeeder sampleTrackId 0 none).result =
      .ok ⟨"Pink Floyd - Money", 200, 8020000⟩ ∧
    handle_request_stream_result "GET" false
        (spotify_request_stream okFeeder sampleTrackId 0 none).result =
      .response 200
        [("Content-Length", "8020000"), ("Audio-Duration", "200"),
         ("Content-Type", "audio/mpeg")]
        .audioStream := by
  decide

/-- C9: the identifier extractors are idempotent: an already-canonical
22-character `[a-zA-Z0-9]` token (resp. 11-character `[a-zA-Z0-9_-]`
token) parses to itself, and whenever parsing any input succeeds with
result `r`, parsing `r` again returns `r`. -/
theorem parse_ids_idempotent :
    (∀ c : List Char, c.length = 22 → c.all isSpotifyIdChar = true →
      parse_spotify_track_id c = some c) ∧
    (∀ c : List Char, c.length = 11 → c.all isYoutubeIdChar = true →
      yt_parse_video_id c = some c) ∧
    (∀ s r : List Char, parse_spotify_track_id s = some r →
      parse_spotify_track_id r = some r) ∧
    (∀ s r : List Char, yt_parse_video_id s = some r →
      yt_parse_video_id r = some r) := by
  refine ⟨?_, ?_, ?_, ?_⟩
  · intro c hl hp
    exact searchClassToken_self hl hp
  · intro c hl hp
    exact searchClassToken_self hl hp
  · intro s r h
    obtain ⟨hl, hp⟩ := searchClassToken_eq_some h
    exact searchClassToken_self hl hp
  · intro s r h
    obtain ⟨hl, hp⟩ := searchClassToken_eq_some h
    exact searchClassToken_self hl hp

/-- Witness for `parse_ids_idempotent` on concrete canonical tokens. -/
theorem parse_ids_idempotent_witness :
    parse_spotify_track_id (List.replicate 22 'a') = some (List.replicate 22 'a') ∧
    yt_parse_video_id (List.replicate 11 'b') = some (List.replicate 11 'b') :=
  ⟨parse_ids_idempotent.1 (List.replicate 22 'a') (by decide) (by decide),
   parse_ids_idempotent.2.1 (List.replicate 11 'b') (by decide) (by decide)⟩

/-- C10: every request to the combined `/stream` endpoint with a
non-empty id ends in an `AttributeError` escaping the handler — the
lookup of `parse_youtube_video_id` on the YouTube streamer fails, that
exception is not a `StreamerError` so the handler's `except` clause does
not convert it to a 400, and consequently no such request ever receives a
successful audio-stream response. -/
theorem stream_combined_attribute_error (i : List Char) (dl : Bool)
    (hne : i.isEmpty = false) :
    stream_combined (some i) dl =
      .unhandled
        (.attributeError "YouTubeStreamer object has no attribute parse_youtube_video_id") ∧
    is_streamer_error
      (.attributeError "YouTubeStreamer object has no attribute parse_youtube_video_id")
      = false ∧
    (∀ status hdrs, stream_combined (some i) dl ≠ .response status hdrs .audioStream) := by
  have hlookup : youtube_streamer_getattr "parse_youtube_video_id" =
      .error (.attributeError "YouTubeStreamer object has no attribute parse_youtube_video_id") := by
    decide
  refine ⟨?_, rfl, ?_⟩
  · simp [stream_combined, hne, hlookup, is_streamer_error]
  · intro status hdrs
    simp [stream_combined, hne, hlookup, is_streamer_error]

/-- Witness for `stream_combined_attribute_error` at a concrete id. -/
theorem stream_combined_attribute_error_witness :
    stream_combined (some sampleTrackId) false =
      .unhandled
        (.attributeError "YouTubeStreamer object has no attribute parse_youtube_video_id") :=
  (stream_combined_attribute_error sampleTrackId false (by decide)).1
